import Mathlib

/-!
Verification of the position / risk-spec core of the `indicatory` repository
(`src/indicatory/position.py`).

Modelling conventions:
* Python floats are modelled as exact rationals (`ℚ`); the algebraic identities
  claimed by the specification are interpreted over this exact arithmetic.
* Python's `None`-able parameters become `Option ℚ`.  Python decides presence of
  a parameter by *numeric truthiness* (`bool(x)`), under which both `None` and
  `0.0` are falsy; `pyTruthy` models this.
* Fallible Python code (raising `ValueError`, `AssertionError`,
  `ZeroDivisionError`, `TypeError`) is modelled with `Except PyErr`.
  Each `pyDiv` marks a spot where CPython raises `ZeroDivisionError`.
* `int(x)` truncates toward zero (`pyInt`); `round(x, n)` rounds half to even
  at `n` decimal digits (`pyRound`), ignoring binary-float representation
  artifacts of CPython.
* The `datetime` timestamp of a price is inert for all claims; it is kept as an
  abstract integer field.
-/

/-- Error kinds raised by the Python source: `invalidSpec` is the `ValueError`
of `check_position_spec` (the spec's `InvalidRiskSpec`), `invalidQuote` the
`AssertionError` of `Price.__init__`, `invalidStopLoss` the `ValueError` of
`open_long_with_stop_loss`, `zeroDivision` a `ZeroDivisionError`, and
`typeError` a `TypeError` (e.g. formatting a bound method, or arithmetic on
`None`). -/
inductive PyErr where
  | invalidSpec
  | invalidQuote
  | invalidStopLoss
  | zeroDivision
  | typeError
  deriving DecidableEq

instance {ε α : Type} [DecidableEq ε] [DecidableEq α] : DecidableEq (Except ε α) :=
  fun x y =>
    match x, y with
    | .error e, .error f =>
      if h : e = f then .isTrue (congrArg Except.error h)
      else .isFalse (fun hh => h (Except.error.inj hh))
    | .error _, .ok _ => .isFalse (fun hh => Except.noConfusion hh)
    | .ok _, .error _ => .isFalse (fun hh => Except.noConfusion hh)
    | .ok a, .ok b =>
      if h : a = b then .isTrue (congrArg Except.ok h)
      else .isFalse (fun hh => h (Except.ok.inj hh))

/-- Python numeric truthiness of an optional float: `None` and `0.0` are falsy,
every other number is truthy (models `bool(x)` as used on `position.py` lines
55 and 135). -/
def pyTruthy (x : Option ℚ) : Bool :=
  match x with
  | none => false
  | some v => decide (v ≠ 0)

/-- Python float division: raises `ZeroDivisionError` on a zero divisor,
otherwise exact division. -/
def pyDiv (a b : ℚ) : Except PyErr ℚ :=
  if b = 0 then .error .zeroDivision else .ok (a / b)

/-- Python `int(x)` on a float: truncation toward zero (for a negative
argument this is `-⌊-q⌋`, the ceiling). -/
def pyInt (q : ℚ) : ℤ :=
  if 0 ≤ q then ⌊q⌋ else -⌊-q⌋

/-- Round a rational to the nearest integer, ties to even (the rounding mode of
Python's `round`). -/
def roundHalfEven (q : ℚ) : ℤ :=
  if q - ⌊q⌋ < 1/2 then ⌊q⌋
  else if q - ⌊q⌋ > 1/2 then ⌊q⌋ + 1
  else if ⌊q⌋ % 2 = 0 then ⌊q⌋ else ⌊q⌋ + 1

/-- Python `round(x, ndigits)` over exact rationals: half-to-even rounding at
`ndigits` decimal places. -/
def pyRound (q : ℚ) (ndigits : ℕ) : ℚ :=
  (roundHalfEven (q * 10 ^ ndigits) : ℚ) / 10 ^ ndigits

/-- `Asset` dataclass: immutable symbol / exchange identity. -/
structure Asset where
  symbol : String
  exchange : String
  deriving DecidableEq

/-- The `Price` class state: a timestamp plus the three optional stored fields
`_bid`, `_ask`, `_spread` (field order follows `Price.__init__`). -/
structure Price where
  date_time : ℤ
  _bid : Option ℚ := none
  _ask : Option ℚ := none
  _spread : Option ℚ := none
  deriving DecidableEq

/-- `Price.__init__`: asserts `any([bid, ask, spread])` — i.e. at least ONE of
the three arguments is truthy (non-`None` and nonzero) — and stores the three
arguments unchanged.  No further sufficiency check is performed at
construction. -/
def mkPrice (date_time : ℤ) (bid ask spread : Option ℚ) : Except PyErr Price :=
  if pyTruthy bid || pyTruthy ask || pyTruthy spread then
    .ok { date_time := date_time, _bid := bid, _ask := ask, _spread := spread }
  else .error .invalidQuote

/-- `calculate_bid_price(ask, spread_percent)`:
`ask * (1 - s/2) / (1 + s/2)`, with the division fallible as in CPython. -/
def calculate_bid_price (ask spread_percent : ℚ) : Except PyErr ℚ :=
  pyDiv (ask * (1 - spread_percent / 2)) (1 + spread_percent / 2)

/-- `calculate_ask_price(bid, spread_percent)`:
`bid * (1 + s/2) / (1 - s/2)`, with the division fallible as in CPython. -/
def calculate_ask_price (bid spread_percent : ℚ) : Except PyErr ℚ :=
  pyDiv (bid * (1 + spread_percent / 2)) (1 - spread_percent / 2)

/-- `calculate_price_spread(ask, bid)`: returns
`(|ask - bid|, round(|ask - bid| / midpoint, 6))`; the division by the
midpoint is fallible. -/
def calculate_price_spread (ask bid : ℚ) : Except PyErr (ℚ × ℚ) :=
  match pyDiv (|ask - bid|) ((ask + bid) / 2) with
  | .error e => .error e
  | .ok pct => .ok (|ask - bid|, pyRound pct 6)

/-- `Price.ask()`: if the stored `_ask` is truthy return it, otherwise derive
it from `_bid` and `_spread` (arithmetic on a `None` operand raises
`TypeError` in CPython).  The memoizing store is dropped: the model is the
value returned. -/
def Price.ask (pr : Price) : Except PyErr ℚ :=
  if pyTruthy pr._ask then .ok (pr._ask.getD 0)
  else
    match pr._bid, pr._spread with
    | some b, some s => calculate_ask_price b s
    | _, _ => .error .typeError

/-- `Price.bid()`: dual of `Price.ask`. -/
def Price.bid (pr : Price) : Except PyErr ℚ :=
  if pyTruthy pr._bid then .ok (pr._bid.getD 0)
  else
    match pr._ask, pr._spread with
    | some a, some s => calculate_bid_price a s
    | _, _ => .error .typeError

/-- The `Fees` dataclass.  The Python field `variable` is renamed `varRate`
(`variable` is a Lean keyword). -/
structure Fees where
  fixed : ℚ
  varRate : ℚ
  order_volume : ℚ
  deriving DecidableEq

/-- `Fees.variable_fee`: `order_volume * variable`. -/
def Fees.variable_fee (f : Fees) : ℚ := f.order_volume * f.varRate

/-- `Fees.fixed_fee`: the fixed component. -/
def Fees.fixed_fee (f : Fees) : ℚ := f.fixed

/-- `Fees.total`: fixed plus variable fee. -/
def Fees.total (f : Fees) : ℚ := f.fixed_fee + f.variable_fee

/-- The body of `check_position_spec` after the presence pattern
`spec_config = tuple(map(bool, [prop, rpt, rp, p]))` has been computed: the
six membership-checked invalid patterns raise, the ten remaining patterns
resolve by the source's `match` arms, each division fallible in the order the
source performs it.  Arguments: account size, the four truthiness bits and the
four raw values for `(proportion, risk_per_trade, risk_percentage,
risk_per_trade_percent)` (a falsy slot carries the inert value `0`). -/
def resolveCore (a : ℚ) (bprop brpt brp bp : Bool) (prop rpt rp p : ℚ) :
    Except PyErr (ℚ × ℚ × ℚ × ℚ) :=
  match bprop, brpt, brp, bp with
  | false, false, false, false => .error .invalidSpec
  | false, false, false, true  => .error .invalidSpec
  | false, false, true , false => .error .invalidSpec
  | false, true , false, false => .error .invalidSpec
  | false, true , false, true  => .error .invalidSpec
  | true , false, false, false => .error .invalidSpec
  | false, false, true , true  =>
    match pyDiv (a * p) rp with
    | .error e => .error e
    | .ok prop2 => .ok (prop2, a * p, rp, p)
  | false, true , true , false =>
    match pyDiv rpt rp with
    | .error e => .error e
    | .ok prop2 =>
      match pyDiv rpt a with
      | .error e => .error e
      | .ok p2 => .ok (prop2, rpt, rp, p2)
  | false, true , true , true  =>
    match pyDiv rpt rp with
    | .error e => .error e
    | .ok prop2 => .ok (prop2, rpt, rp, p)
  | true , false, false, true  =>
    match pyDiv (a * p) prop with
    | .error e => .error e
    | .ok rp2 => .ok (prop, a * p, rp2, p)
  | true , false, true , false =>
    match pyDiv (prop * rp) a with
    | .error e => .error e
    | .ok p2 => .ok (prop, a * p2, rp, p2)
  | true , false, true , true  => .ok (prop, a * p, rp, p)
  | true , true , false, false =>
    match pyDiv rpt prop with
    | .error e => .error e
    | .ok rp2 =>
      match pyDiv rpt a with
      | .error e => .error e
      | .ok p2 => .ok (prop, rpt, rp2, p2)
  | true , true , false, true  =>
    match pyDiv rpt prop with
    | .error e => .error e
    | .ok rp2 => .ok (prop, rpt, rp2, p)
  | true , true , true , false =>
    match pyDiv rpt a with
    | .error e => .error e
    | .ok p2 => .ok (prop, rpt, rp, p2)
  | true , true , true , true  => .ok (prop, rpt, rp, p)

/-- `check_position_spec(account_size, proportion, risk_per_trade,
risk_per_trade_percent, risk_percentage)` (parameters in the source's keyword
order).  Presence of each parameter is decided by `bool(x)`; the resolved
4-tuple is returned in the order `(proportion, risk_per_trade,
risk_percentage, risk_per_trade_percent)`. -/
def check_position_spec (account_size : ℚ)
    (proportion risk_per_trade risk_per_trade_percent risk_percentage : Option ℚ) :
    Except PyErr (ℚ × ℚ × ℚ × ℚ) :=
  resolveCore account_size
    (pyTruthy proportion) (pyTruthy risk_per_trade)
    (pyTruthy risk_percentage) (pyTruthy risk_per_trade_percent)
    (proportion.getD 0) (risk_per_trade.getD 0)
    (risk_percentage.getD 0) (risk_per_trade_percent.getD 0)

/-- The six presence patterns over `(proportion, risk_per_trade,
risk_percentage, risk_per_trade_percent)` listed in
`invalid_spec_configs` of the source. -/
def invalid_spec_configs : List (Bool × Bool × Bool × Bool) :=
  [(false, false, false, false),
   (false, false, false, true),
   (false, false, true , false),
   (false, true , false, false),
   (false, true , false, true),
   (true , false, false, false)]

/-- The presence pattern the source computes as
`tuple(map(bool, [prop, rpt, rp, p]))`; argument order is the function
signature's, output order is `(proportion, risk_per_trade, risk_percentage,
risk_per_trade_percent)`. -/
def spec_config
    (proportion risk_per_trade risk_per_trade_percent risk_percentage : Option ℚ) :
    Bool × Bool × Bool × Bool :=
  (pyTruthy proportion, pyTruthy risk_per_trade,
   pyTruthy risk_percentage, pyTruthy risk_per_trade_percent)

/-- The five presence patterns that supply exactly two of the four risk
parameters and are not under-determined. -/
def valid_two_configs : List (Bool × Bool × Bool × Bool) :=
  [(false, false, true , true),
   (false, true , true , false),
   (true , false, false, true),
   (true , false, true , false),
   (true , true , false, false)]

example : check_position_spec 50000 none (some 500) none (some (2/25))
    = .ok (6250, 500, 2/25, 1/100) := by
  norm_num [check_position_spec, resolveCore, pyTruthy, pyDiv]

example : check_position_spec 50000 none (some 500) none (some 0)
    = .error .invalidSpec := by
  norm_num [check_position_spec, resolveCore, pyTruthy, pyDiv]

/-- The state of a `LongPosition`: constructor arguments plus the four resolved
risk quantities stored by `Position.__init__` and the two fee rates stored by
`LongPosition.__init__`. -/
structure LongPosition where
  asset : Asset
  account_size : ℚ
  opening_price : Price
  close_price : Option Price := none
  proportion : ℚ
  risk_per_trade : ℚ
  risk_percentage : ℚ
  risk_per_trade_percent : ℚ
  fixed_fee : ℚ := 0
  variable_fee : ℚ := 0
  deriving DecidableEq

/-- `LongPosition.__init__`: runs `check_position_spec` on the optional risk
arguments and stores the resolved 4-tuple; `close_price` starts absent
(the position is created open). -/
def mkLongPosition (asset : Asset) (account_size : ℚ) (opening_price : Price)
    (fixed_fee variable_fee : ℚ)
    (proportion risk_per_trade risk_per_trade_percent risk_percentage : Option ℚ) :
    Except PyErr LongPosition :=
  match check_position_spec account_size proportion risk_per_trade
      risk_per_trade_percent risk_percentage with
  | .error e => .error e
  | .ok (prop, rpt, rp, p) =>
    .ok { asset := asset, account_size := account_size,
          opening_price := opening_price, close_price := none,
          proportion := prop, risk_per_trade := rpt, risk_percentage := rp,
          risk_per_trade_percent := p,
          fixed_fee := fixed_fee, variable_fee := variable_fee }

/-- `Position.is_open`: the close price is absent. -/
def LongPosition.is_open (pos : LongPosition) : Bool := pos.close_price.isNone

/-- `LongPosition.close(price)`: on an open position stores `price` and returns
it.  On an already-closed position the method first builds a log notice whose
f-string formats the *bound method* `self.close_price.bid` (the call
parentheses are missing in the source) with the format spec `.2f`; CPython
raises `TypeError` when a non-empty format spec is applied to a method object,
so the early-return branch is never reached and the call fails. -/
def LongPosition.close (pos : LongPosition) (price : Price) :
    Except PyErr (Price × LongPosition) :=
  match pos.close_price with
  | some _ => .error .typeError
  | none => .ok (price, { pos with close_price := some price })

/-- `LongPosition.shares()`: `int(risk_per_trade / risk_percentage /
opening_ask)`, with both divisions and the `ask()` accessor fallible in source
order. -/
def LongPosition.shares (pos : LongPosition) : Except PyErr ℤ :=
  match pyDiv pos.risk_per_trade pos.risk_percentage with
  | .error e => .error e
  | .ok max_size =>
    match Price.ask pos.opening_price with
    | .error e => .error e
    | .ok a =>
      match pyDiv max_size a with
      | .error e => .error e
      | .ok q => .ok (pyInt q)

/-- `LongPosition.size()`: `shares() * opening_ask`. -/
def LongPosition.size (pos : LongPosition) : Except PyErr ℚ :=
  match pos.shares with
  | .error e => .error e
  | .ok sh =>
    match Price.ask pos.opening_price with
    | .error e => .error e
    | .ok a => .ok (sh * a)

/-- `LongPosition.stop_loss()`: `round(opening_ask * (1 - risk_percentage), 3)`. -/
def LongPosition.stop_loss (pos : LongPosition) : Except PyErr ℚ :=
  match Price.ask pos.opening_price with
  | .error e => .error e
  | .ok a => .ok (pyRound (a * (1 - pos.risk_percentage)) 3)

/-- `LongPosition.opening_costs()`: a `Fees` record with
`order_volume = size()`, returned as `(fixed_fee, variable_fee, total)`. -/
def LongPosition.opening_costs (pos : LongPosition) : Except PyErr (ℚ × ℚ × ℚ) :=
  match pos.size with
  | .error e => .error e
  | .ok sz =>
    let fees : Fees := { fixed := pos.fixed_fee, varRate := pos.variable_fee,
                         order_volume := sz }
    .ok (fees.fixed_fee, fees.variable_fee, fees.total)

/-- `LongPosition.closing_costs()`: `None` while open; once closed, a `Fees`
record with `order_volume = shares() * close_price.bid()`. -/
def LongPosition.closing_costs (pos : LongPosition) :
    Except PyErr (Option (ℚ × ℚ × ℚ)) :=
  match pos.close_price with
  | none => .ok none
  | some cp =>
    match pos.shares with
    | .error e => .error e
    | .ok sh =>
      match Price.bid cp with
      | .error e => .error e
      | .ok b =>
        let fees : Fees := { fixed := pos.fixed_fee, varRate := pos.variable_fee,
                             order_volume := (sh : ℚ) * b }
        .ok (some (fees.fixed_fee, fees.variable_fee, fees.total))

/-- `LongPosition.total_cost()`: opening costs while open, opening plus
closing costs component-wise once closed (unpacking a `None` from
`closing_costs` would be a `TypeError`, but once closed it is never `None`). -/
def LongPosition.total_cost (pos : LongPosition) : Except PyErr (ℚ × ℚ × ℚ) :=
  match pos.opening_costs with
  | .error e => .error e
  | .ok (oFix, oVar, oTot) =>
    match pos.close_price with
    | none => .ok (oFix, oVar, oTot)
    | some _ =>
      match pos.closing_costs with
      | .error e => .error e
      | .ok none => .error .typeError
      | .ok (some (cFix, cVar, cTot)) => .ok (oFix + cFix, oVar + cVar, oTot + cTot)

/-- `LongPosition.returns()`: `None` while open; once closed,
`(round(gains, 3), round(gains / size(), 3), round(gains - total_cost[2], 3))`
with `gains = shares() * close_bid - size()`. -/
def LongPosition.returns (pos : LongPosition) :
    Except PyErr (Option (ℚ × ℚ × ℚ)) :=
  match pos.close_price with
  | none => .ok none
  | some cp =>
    match pos.shares with
    | .error e => .error e
    | .ok sh =>
      match Price.bid cp with
      | .error e => .error e
      | .ok b =>
        match pos.size with
        | .error e => .error e
        | .ok sz =>
          let gains := (sh : ℚ) * b - sz
          match pyDiv gains sz with
          | .error e => .error e
          | .ok gainsPct =>
            match pos.total_cost with
            | .error e => .error e
            | .ok tc =>
              .ok (some (pyRound gains 3, pyRound gainsPct 3,
                         pyRound (gains - tc.2.2) 3))

/-- `FactorLongPosition`: a `LongPosition` tracking an underlying price, with a
leverage `factor` and a `subscription_ratio`. -/
structure FactorLongPosition extends LongPosition where
  factor : ℤ := 3
  subscription_ratio : ℚ := 1/10
  deriving DecidableEq

/-- `FactorLongPosition.__init__`: resolves the risk spec exactly as the plain
constructor, then stores `factor` and `subscription_ratio`. -/
def mkFactorLongPosition (asset : Asset) (account_size : ℚ)
    (opening_price : Price) (factor : ℤ) (subscription_ratio : ℚ)
    (fixed_fee variable_fee : ℚ)
    (proportion risk_per_trade risk_per_trade_percent risk_percentage : Option ℚ) :
    Except PyErr FactorLongPosition :=
  match mkLongPosition asset account_size opening_price fixed_fee variable_fee
      proportion risk_per_trade risk_per_trade_percent risk_percentage with
  | .error e => .error e
  | .ok base =>
    .ok { toLongPosition := base, factor := factor,
          subscription_ratio := subscription_ratio }

/-- `FactorLongPosition.shares()` override: `int(investment / (opening_ask *
subscription_ratio))` with `investment = risk_per_trade / risk_percentage`. -/
def FactorLongPosition.shares (fpos : FactorLongPosition) : Except PyErr ℤ :=
  match pyDiv fpos.risk_per_trade fpos.risk_percentage with
  | .error e => .error e
  | .ok investment =>
    match Price.ask fpos.opening_price with
    | .error e => .error e
    | .ok a =>
      match pyDiv investment (a * fpos.subscription_ratio) with
      | .error e => .error e
      | .ok q => .ok (pyInt q)

/-- `FactorLongPosition.size()` override:
`shares() * opening_ask * subscription_ratio`. -/
def FactorLongPosition.size (fpos : FactorLongPosition) : Except PyErr ℚ :=
  match fpos.shares with
  | .error e => .error e
  | .ok sh =>
    match Price.ask fpos.opening_price with
    | .error e => .error e
    | .ok a => .ok (sh * a * fpos.subscription_ratio)

/-- `FactorLongPosition.stop_loss()` override:
`round(opening_ask * (1 - risk_percentage / factor), 3)`; the division by
`factor` is fallible. -/
def FactorLongPosition.stop_loss (fpos : FactorLongPosition) : Except PyErr ℚ :=
  match pyDiv fpos.risk_percentage fpos.factor with
  | .error e => .error e
  | .ok adjusted =>
    match Price.ask fpos.opening_price with
    | .error e => .error e
    | .ok a => .ok (pyRound (a * (1 - adjusted)) 3)

/-- `FactorLongPosition.closing_costs()` override: `None` while open; once
closed, a `Fees` record with `order_volume = shares() * close_price.bid() *
subscription_ratio`. -/
def FactorLongPosition.closing_costs (fpos : FactorLongPosition) :
    Except PyErr (Option (ℚ × ℚ × ℚ)) :=
  match fpos.close_price with
  | none => .ok none
  | some cp =>
    match fpos.shares with
    | .error e => .error e
    | .ok sh =>
      match Price.bid cp with
      | .error e => .error e
      | .ok b =>
        let fees : Fees := { fixed := fpos.fixed_fee, varRate := fpos.variable_fee,
                             order_volume := (sh : ℚ) * b * fpos.subscription_ratio }
        .ok (some (fees.fixed_fee, fees.variable_fee, fees.total))

/-- `opening_costs` as dispatched on a `FactorLongPosition`: the inherited body
delegates to the overriding `size()`. -/
def FactorLongPosition.opening_costs (fpos : FactorLongPosition) :
    Except PyErr (ℚ × ℚ × ℚ) :=
  match fpos.size with
  | .error e => .error e
  | .ok sz =>
    let fees : Fees := { fixed := fpos.fixed_fee, varRate := fpos.variable_fee,
                         order_volume := sz }
    .ok (fees.fixed_fee, fees.variable_fee, fees.total)

/-- `total_cost` as dispatched on a `FactorLongPosition`: the inherited body
delegates to the overriding `opening_costs`/`closing_costs`. -/
def FactorLongPosition.total_cost (fpos : FactorLongPosition) :
    Except PyErr (ℚ × ℚ × ℚ) :=
  match fpos.opening_costs with
  | .error e => .error e
  | .ok (oFix, oVar, oTot) =>
    match fpos.close_price with
    | none => .ok (oFix, oVar, oTot)
    | some _ =>
      match fpos.closing_costs with
      | .error e => .error e
      | .ok none => .error .typeError
      | .ok (some (cFix, cVar, cTot)) => .ok (oFix + cFix, oVar + cVar, oTot + cTot)

/-- `FactorLongPosition.returns()` override: `None` while open; once closed,
`gains = (close_bid - opening_ask) * shares() * subscription_ratio * factor`,
then `(round(gains, 3), round(gains / size(), 3),
round(gains - total_cost()[2], 3))`. -/
def FactorLongPosition.returns (fpos : FactorLongPosition) :
    Except PyErr (Option (ℚ × ℚ × ℚ)) :=
  match fpos.close_price with
  | none => .ok none
  | some cp =>
    match Price.bid cp with
    | .error e => .error e
    | .ok b =>
      match Price.ask fpos.opening_price with
      | .error e => .error e
      | .ok a =>
        match fpos.shares with
        | .error e => .error e
        | .ok sh =>
          let gains := (b - a) * sh * fpos.subscription_ratio * fpos.factor
          match fpos.size with
          | .error e => .error e
          | .ok sz =>
            match pyDiv gains sz with
            | .error e => .error e
            | .ok gainsPct =>
              match fpos.total_cost with
              | .error e => .error e
              | .ok tc =>
                .ok (some (pyRound gains 3, pyRound gainsPct 3,
                           pyRound (gains - tc.2.2) 3))

/-- `open_long_with_stop_loss`: raises `InvalidStopLoss` when
`ask <= stop_loss` or `bid <= stop_loss < ask`, otherwise constructs a
`LongPosition` with `risk_percentage = 1 - stop_loss / ask` (and `proportion`
left absent). -/
def open_long_with_stop_loss (account_size : ℚ) (asset : Asset) (price : Price)
    (stop_loss fixed_fee variable_fee : ℚ)
    (risk_per_trade risk_per_trade_percent : Option ℚ) :
    Except PyErr LongPosition :=
  match Price.ask price with
  | .error e => .error e
  | .ok a =>
    if a ≤ stop_loss then .error .invalidStopLoss
    else
      match Price.bid price with
      | .error e => .error e
      | .ok b =>
        if b ≤ stop_loss ∧ stop_loss < a then .error .invalidStopLoss
        else
          match pyDiv stop_loss a with
          | .error e => .error e
          | .ok r =>
            mkLongPosition asset account_size price fixed_fee variable_fee
              none risk_per_trade risk_per_trade_percent (some (1 - r))

/-- A concrete asset for the witness positions. -/
def acme : Asset := { symbol := "ACME", exchange := "XETRA" }

/-- Opening quote with ask 100 and bid 98 (the quote of the spec's examples). -/
def price100_98 : Price :=
  { date_time := 0, _bid := some 98, _ask := some 100, _spread := none }

/-- Closing quote with ask 110 and bid 108. -/
def price110_108 : Price :=
  { date_time := 10, _bid := some 108, _ask := some 110, _spread := none }

/-- An open position over `price100_98` whose risk fields are the resolved
spec of `account_size=50000, risk_per_trade=500, risk_percentage=0.08`
(fees: fixed 1, variable rate 0.001). -/
def openPos : LongPosition :=
  { asset := acme, account_size := 50000, opening_price := price100_98,
    close_price := none, proportion := 6250, risk_per_trade := 500,
    risk_percentage := 2/25, risk_per_trade_percent := 1/100,
    fixed_fee := 1, variable_fee := 1/1000 }

/-- `openPos` after being closed at `price110_108`. -/
def closedPos : LongPosition := { openPos with close_price := some price110_108 }

/-- A factor variant of `closedPos` with factor 3 and subscription ratio 0.1. -/
def factorClosedPos : FactorLongPosition :=
  { toLongPosition := closedPos, factor := 3, subscription_ratio := 1/10 }

example : LongPosition.shares closedPos = .ok 62 := by
  norm_num [LongPosition.shares, closedPos, openPos, price100_98, Price.ask,
    pyTruthy, pyDiv, pyInt]

example : LongPosition.closing_costs closedPos = .ok (some (1, 837/125, 962/125)) := by
  norm_num [LongPosition.closing_costs, LongPosition.shares, closedPos, openPos,
    price100_98, price110_108, Price.ask, Price.bid, pyTruthy, pyDiv, pyInt,
    Fees.fixed_fee, Fees.variable_fee, Fees.total]

example : FactorLongPosition.total_cost factorClosedPos = .ok (2, 13, 15) := by
  norm_num [FactorLongPosition.total_cost, FactorLongPosition.opening_costs,
    FactorLongPosition.closing_costs, FactorLongPosition.size,
    FactorLongPosition.shares, factorClosedPos, closedPos, openPos,
    price100_98, price110_108, Price.ask, Price.bid, pyTruthy, pyDiv, pyInt,
    Fees.fixed_fee, Fees.variable_fee, Fees.total]

example : FactorLongPosition.returns factorClosedPos = .ok (some (1500, 6/25, 1485)) := by
  norm_num [FactorLongPosition.returns, FactorLongPosition.total_cost,
    FactorLongPosition.opening_costs, FactorLongPosition.closing_costs,
    FactorLongPosition.size, FactorLongPosition.shares, factorClosedPos,
    closedPos, openPos, price100_98, price110_108, Price.ask, Price.bid,
    pyTruthy, pyDiv, pyInt, Fees.fixed_fee, Fees.variable_fee, Fees.total,
    pyRound, roundHalfEven]

example : FactorLongPosition.stop_loss factorClosedPos = .ok (97333/1000) := by
  norm_num [FactorLongPosition.stop_loss, factorClosedPos, closedPos, openPos,
    price100_98, Price.ask, pyTruthy, pyDiv, pyRound, roundHalfEven]

/-- Replace an explicit zero argument by an omitted one. -/
def zeroToNone (x : Option ℚ) : Option ℚ :=
  match x with
  | some v => if v = 0 then none else some v
  | none => none

theorem pyTruthy_getD (x : Option ℚ) : pyTruthy x = true → x.getD 0 ≠ 0 := by
  cases x <;> simp [pyTruthy]

theorem pyDiv_ok {b : ℚ} (hb : b ≠ 0) (a : ℚ) : pyDiv a b = .ok (a / b) := by
  simp [pyDiv, hb]

theorem pyTruthy_zeroToNone (x : Option ℚ) :
    pyTruthy (zeroToNone x) = pyTruthy x := by
  cases x with
  | none => rfl
  | some v => by_cases h : v = 0 <;> simp [zeroToNone, pyTruthy, h]

theorem getD_zeroToNone (x : Option ℚ) : (zeroToNone x).getD 0 = x.getD 0 := by
  cases x with
  | none => rfl
  | some v => by_cases h : v = 0 <;> simp [zeroToNone, h]

theorem resolveCore_invalid_iff (a : ℚ) (b1 b2 b3 b4 : Bool) (v1 v2 v3 v4 : ℚ)
    (ha : a ≠ 0) (h1 : b1 = true → v1 ≠ 0) (h3 : b3 = true → v3 ≠ 0) :
    (resolveCore a b1 b2 b3 b4 v1 v2 v3 v4 = .error .invalidSpec ↔
      (b1, b2, b3, b4) ∈ invalid_spec_configs)
    ∧ ((b1, b2, b3, b4) ∉ invalid_spec_configs →
      ∃ t, resolveCore a b1 b2 b3 b4 v1 v2 v3 v4 = .ok t) := by
  cases b1 <;> cases b2 <;> cases b3 <;> cases b4 <;>
    simp_all [resolveCore, pyDiv, invalid_spec_configs]

theorem resolveCore_two_identities (a : ℚ) (b1 b2 b3 b4 : Bool) (v1 v2 v3 v4 : ℚ)
    (t : ℚ × ℚ × ℚ × ℚ) (ha : a ≠ 0)
    (h1 : b1 = true → v1 ≠ 0) (h2 : b2 = true → v2 ≠ 0)
    (h3 : b3 = true → v3 ≠ 0) (h4 : b4 = true → v4 ≠ 0)
    (hmem : (b1, b2, b3, b4) ∈ valid_two_configs)
    (hok : resolveCore a b1 b2 b3 b4 v1 v2 v3 v4 = .ok t) :
    t.1 = t.2.1 / t.2.2.1 ∧ t.2.1 = a * t.2.2.2 := by
  simp only [valid_two_configs, List.mem_cons, List.not_mem_nil, or_false,
    Prod.mk.injEq] at hmem
  rcases hmem with ⟨hb1, hb2, hb3, hb4⟩ | ⟨hb1, hb2, hb3, hb4⟩ |
      ⟨hb1, hb2, hb3, hb4⟩ | ⟨hb1, hb2, hb3, hb4⟩ | ⟨hb1, hb2, hb3, hb4⟩ <;>
    subst hb1 <;> subst hb2 <;> subst hb3 <;> subst hb4
  · rw [resolveCore, pyDiv_ok (h3 rfl)] at hok
    obtain rfl := (Except.ok.inj hok).symm
    exact ⟨rfl, rfl⟩
  · rw [resolveCore, pyDiv_ok (h3 rfl), pyDiv_ok ha] at hok
    obtain rfl := (Except.ok.inj hok).symm
    refine ⟨rfl, ?_⟩
    field_simp
  · rw [resolveCore, pyDiv_ok (h1 rfl)] at hok
    obtain rfl := (Except.ok.inj hok).symm
    refine ⟨?_, rfl⟩
    show v1 = a * v4 / (a * v4 / v1)
    rw [div_div_eq_mul_div, mul_comm (a * v4) v1, mul_div_assoc,
      div_self (mul_ne_zero ha (h4 rfl)), mul_one]
  · rw [resolveCore, pyDiv_ok ha] at hok
    obtain rfl := (Except.ok.inj hok).symm
    refine ⟨?_, rfl⟩
    show v1 = a * (v1 * v3 / a) / v3
    rw [mul_comm a (v1 * v3 / a), div_mul_cancel₀ _ ha, mul_div_assoc,
      div_self (h3 rfl), mul_one]
  · rw [resolveCore, pyDiv_ok (h1 rfl), pyDiv_ok ha] at hok
    obtain rfl := (Except.ok.inj hok).symm
    constructor
    · show v1 = v2 / (v2 / v1)
      rw [div_div_eq_mul_div, mul_comm v2 v1, mul_div_assoc,
        div_self (h2 rfl), mul_one]
    · show v2 = a * (v2 / a)
      rw [mul_comm a (v2 / a), div_mul_cancel₀ _ ha]

/-- C1: `check_position_spec` fails with the `InvalidRiskSpec` `ValueError`
exactly when the truthiness presence pattern over `(proportion,
risk_per_trade, risk_percentage, risk_per_trade_percent)` is one of the six
under-determined patterns, and for positive `account_size` (truthy divisors
being nonzero, every division the ten remaining patterns perform is then
defined) every other pattern resolves to a 4-tuple without raising. -/
theorem check_position_spec_invalid_iff (a : ℚ)
    (prop rpt pct rp : Option ℚ) (ha : 0 < a) :
    (check_position_spec a prop rpt pct rp = .error .invalidSpec ↔
      spec_config prop rpt pct rp ∈ invalid_spec_configs)
    ∧ (spec_config prop rpt pct rp ∉ invalid_spec_configs →
      ∃ t, check_position_spec a prop rpt pct rp = .ok t) :=
  resolveCore_invalid_iff a (pyTruthy prop) (pyTruthy rpt) (pyTruthy rp)
    (pyTruthy pct) (prop.getD 0) (rpt.getD 0) (rp.getD 0) (pct.getD 0)
    (ne_of_gt ha) (pyTruthy_getD prop) (pyTruthy_getD rp)

theorem check_position_spec_invalid_iff_witness :
    ((0:ℚ) < 50000)
    ∧ check_position_spec 50000 none (some 500) none none = .error .invalidSpec
    ∧ (∃ t, check_position_spec 50000 none (some 500) none (some (2/25)) = .ok t) := by
  refine ⟨by norm_num, ?_, ?_⟩
  · exact (check_position_spec_invalid_iff 50000 none (some 500) none none
      (by norm_num)).1.mpr
      (by norm_num [spec_config, pyTruthy, invalid_spec_configs])
  · exact (check_position_spec_invalid_iff 50000 none (some 500) none
      (some (2/25)) (by norm_num)).2
      (by norm_num [spec_config, pyTruthy, invalid_spec_configs])

/-- C2: for positive `account_size` and any valid presence pattern supplying
exactly two of the four risk parameters (present values being nonzero by
truthiness), the resolved 4-tuple `(proportion, risk_per_trade,
risk_percentage, risk_per_trade_percent)` satisfies
`proportion = risk_per_trade / risk_percentage` and
`risk_per_trade = account_size * risk_per_trade_percent` exactly; in
particular `account_size=50000, risk_per_trade=500, risk_percentage=0.08`
resolves to `(6250, 500, 0.08, 0.01)`. -/
theorem check_position_spec_two_of_four_identities :
    (∀ (a : ℚ) (prop rpt pct rp : Option ℚ) (t : ℚ × ℚ × ℚ × ℚ), 0 < a →
      spec_config prop rpt pct rp ∈ valid_two_configs →
      check_position_spec a prop rpt pct rp = .ok t →
      t.1 = t.2.1 / t.2.2.1 ∧ t.2.1 = a * t.2.2.2)
    ∧ check_position_spec 50000 none (some 500) none (some (2/25))
        = .ok (6250, 500, 2/25, 1/100) := by
  constructor
  · intro a prop rpt pct rp t ha hmem hok
    exact resolveCore_two_identities a (pyTruthy prop) (pyTruthy rpt)
      (pyTruthy rp) (pyTruthy pct) (prop.getD 0) (rpt.getD 0) (rp.getD 0)
      (pct.getD 0) t (ne_of_gt ha) (pyTruthy_getD prop) (pyTruthy_getD rpt)
      (pyTruthy_getD rp) (pyTruthy_getD pct) hmem hok
  · norm_num [check_position_spec, resolveCore, pyTruthy, pyDiv]

theorem check_position_spec_two_of_four_identities_witness :
    (6250 : ℚ) = 500 / (2/25) ∧ (500 : ℚ) = 50000 * (1/100) := by
  have h := check_position_spec_two_of_four_identities
  exact h.1 50000 none (some 500) none (some (2/25)) (6250, 500, 2/25, 1/100)
    (by norm_num) (by norm_num [spec_config, pyTruthy, valid_two_configs]) h.2

/-- C9 counterexample: calling the resolver with `risk_per_trade = 500` and
`risk_percentage = 0` supplied raises `InvalidRiskSpec`, not a
division-by-zero error — the truthiness presence check reclassifies the zero
divisor as absent before any division runs. -/
theorem check_position_spec_zero_divisor_cex :
    check_position_spec 50000 none (some 500) none (some 0) = .error .invalidSpec
    ∧ check_position_spec 50000 none (some 500) none (some 0)
        ≠ .error .zeroDivision := by
  have h1 : check_position_spec 50000 none (some 500) none (some 0)
      = .error .invalidSpec := by
    norm_num [check_position_spec, resolveCore, pyTruthy]
  refine ⟨h1, ?_⟩
  rw [h1]
  exact fun hh => PyErr.noConfusion (Except.error.inj hh)

/-- C9 (amended): a supplied zero `risk_percentage` or `proportion` is treated
as absent by the truthiness presence check, so the call behaves exactly as if
the parameter were omitted — here raising `InvalidRiskSpec` — and never
reaches a division by the supplied zero; the resolver's unguarded
division-by-zero error arises only from dividing by `account_size = 0`. -/
theorem check_position_spec_truthiness_reclassifies_zero (a rptv : ℚ)
    (hrpt : rptv ≠ 0) :
    (check_position_spec a none (some rptv) none (some 0)
        = check_position_spec a none (some rptv) none none
      ∧ check_position_spec a none (some rptv) none (some 0)
        = .error .invalidSpec
      ∧ check_position_spec a (some 0) (some rptv) none none
        = .error .invalidSpec)
    ∧ (∀ rpv : ℚ, rpv ≠ 0 →
        check_position_spec 0 none (some rptv) none (some rpv)
          = .error .zeroDivision) := by
  refine ⟨⟨?_, ?_, ?_⟩, ?_⟩
  · simp [check_position_spec, resolveCore, pyTruthy]
  · simp [check_position_spec, resolveCore, pyTruthy, hrpt]
  · simp [check_position_spec, resolveCore, pyTruthy, hrpt]
  · intro rpv hrpv
    simp [check_position_spec, resolveCore, pyTruthy, pyDiv, hrpt, hrpv]

theorem check_position_spec_truthiness_reclassifies_zero_witness :
    ((500:ℚ) ≠ 0)
    ∧ check_position_spec 50000 none (some 500) none (some 0)
        = .error .invalidSpec
    ∧ check_position_spec 0 none (some 500) none (some (2/25))
        = .error .zeroDivision := by
  have h := check_position_spec_truthiness_reclassifies_zero 50000 500 (by norm_num)
  exact ⟨by norm_num, h.1.2.1, h.2 (2/25) (by norm_num)⟩

/-- C10: the resolver decides presence by numeric truthiness, so supplying
`0` for any risk parameter produces exactly the same outcome — same resolved
tuple or same error — as omitting it; in particular `risk_per_trade=500` with
`risk_percentage=0` raises `InvalidRiskSpec` as the risk_per_trade-only
pattern does. -/
theorem check_position_spec_zero_eq_omitted :
    (∀ (a : ℚ) (prop rpt pct rp : Option ℚ),
      check_position_spec a (zeroToNone prop) (zeroToNone rpt) (zeroToNone pct)
          (zeroToNone rp)
        = check_position_spec a prop rpt pct rp)
    ∧ check_position_spec 50000 none (some 500) none (some 0)
        = .error .invalidSpec
    ∧ check_position_spec 50000 none (some 500) none none
        = .error .invalidSpec := by
  refine ⟨?_, ?_, ?_⟩
  · intro a prop rpt pct rp
    simp only [check_position_spec, pyTruthy_zeroToNone, getD_zeroToNone]
  · simp [check_position_spec, resolveCore, pyTruthy]
  · simp [check_position_spec, resolveCore, pyTruthy]

/-- C3 evaluation: closing `openPos` succeeds and yields `closedPos`;
calling `close` again on `closedPos` raises `TypeError` (the log notice
formats the bound method `close_price.bid` with `:.2f`) instead of returning
the stored close price. -/
theorem close_twice_raises_typeError :
    LongPosition.close openPos price110_108 = .ok (price110_108, closedPos)
    ∧ LongPosition.close closedPos price110_108 = .error .typeError := by
  exact ⟨rfl, rfl⟩

theorem pyDiv_error_eq {x y : ℚ} {e : PyErr} (h : pyDiv x y = .error e) :
    e = .zeroDivision := by
  unfold pyDiv at h
  split at h
  · exact (Except.error.inj h).symm
  · exact Except.noConfusion h

theorem resolveCore_ne_stoploss (a : ℚ) (b1 b2 b3 b4 : Bool) (v1 v2 v3 v4 : ℚ) :
    resolveCore a b1 b2 b3 b4 v1 v2 v3 v4 ≠ .error .invalidStopLoss := by
  cases b1 <;> cases b2 <;> cases b3 <;> cases b4 <;>
    simp only [resolveCore] <;>
    intro hh <;>
    (repeat' split at hh) <;>
    first
      | exact PyErr.noConfusion (Except.error.inj hh)
      | exact Except.noConfusion hh
      | exact PyErr.noConfusion
          ((pyDiv_error_eq (by assumption)).symm.trans (Except.error.inj hh))

theorem check_position_spec_ne_stoploss (a : ℚ) (prop rpt pct rp : Option ℚ) :
    check_position_spec a prop rpt pct rp ≠ .error .invalidStopLoss :=
  resolveCore_ne_stoploss a (pyTruthy prop) (pyTruthy rpt) (pyTruthy rp)
    (pyTruthy pct) (prop.getD 0) (rpt.getD 0) (rp.getD 0) (pct.getD 0)

theorem resolveCore_rp_false_err (a : ℚ) (b2 b4 : Bool) (v1 v2 v3 v4 : ℚ)
    (t : ℚ × ℚ × ℚ × ℚ) :
    resolveCore a false b2 false b4 v1 v2 v3 v4 ≠ .ok t := by
  cases b2 <;> cases b4 <;> simp [resolveCore]

theorem resolveCore_preserves_rp (a : ℚ) (b1 b2 b4 : Bool) (v1 v2 v3 v4 : ℚ)
    (t : ℚ × ℚ × ℚ × ℚ)
    (hok : resolveCore a b1 b2 true b4 v1 v2 v3 v4 = .ok t) :
    t.2.2.1 = v3 := by
  cases b1 <;> cases b2 <;> cases b4 <;>
    simp only [resolveCore] at hok <;>
    repeat' first
      | (obtain rfl := (Except.ok.inj hok).symm; rfl)
      | exact Except.noConfusion hok
      | split at hok

/-- The `risk_percentage` a resolver call with `proportion` omitted and
`risk_percentage = some v` returns is exactly `v`. -/
theorem check_position_spec_rp_out (a : ℚ) (rpt pct : Option ℚ) (v : ℚ)
    (t : ℚ × ℚ × ℚ × ℚ)
    (hok : check_position_spec a none rpt pct (some v) = .ok t) :
    t.2.2.1 = v := by
  by_cases hv : v = 0
  · subst hv
    exfalso
    have hfalse : pyTruthy (some (0:ℚ)) = false := by simp [pyTruthy]
    unfold check_position_spec at hok
    rw [hfalse] at hok
    exact resolveCore_rp_false_err a (pyTruthy rpt) (pyTruthy pct) _ _ _ _ t hok
  · have htrue : pyTruthy (some v) = true := by simp [pyTruthy, hv]
    unfold check_position_spec at hok
    rw [htrue] at hok
    simpa using resolveCore_preserves_rp a _ _ _ _ _ _ _ t hok

/-- C4: `open_long_with_stop_loss` raises `InvalidStopLoss` if and only if
`stop_loss >= ask` or `bid <= stop_loss < ask`; whenever it returns a
position, that position's stored `risk_percentage` is `1 - stop_loss / ask`.
(The successful branch additionally requires the remaining risk arguments to
satisfy the resolver, as in the witness below.) -/
theorem open_long_with_stop_loss_spec (account_size sl ffee vfee : ℚ)
    (asset : Asset) (price : Price) (rpt pct : Option ℚ) (a b : ℚ)
    (hask : Price.ask price = .ok a) (hbid : Price.bid price = .ok b) :
    (open_long_with_stop_loss account_size asset price sl ffee vfee rpt pct
        = .error .invalidStopLoss ↔ (a ≤ sl ∨ (b ≤ sl ∧ sl < a)))
    ∧ (∀ pos,
        open_long_with_stop_loss account_size asset price sl ffee vfee rpt pct
          = .ok pos → pos.risk_percentage = 1 - sl / a) := by
  by_cases h1 : a ≤ sl
  · simp only [open_long_with_stop_loss, hask, hbid, if_pos h1]
    refine ⟨⟨fun _ => Or.inl h1, fun _ => trivial⟩, ?_⟩
    intro pos hpos
    exact Except.noConfusion hpos
  · by_cases h2 : b ≤ sl ∧ sl < a
    · simp only [open_long_with_stop_loss, hask, hbid, if_neg h1, if_pos h2]
      refine ⟨⟨fun _ => Or.inr h2, fun _ => trivial⟩, ?_⟩
      intro pos hpos
      exact Except.noConfusion hpos
    · simp only [open_long_with_stop_loss, hask, hbid, if_neg h1, if_neg h2]
      constructor
      · constructor
        · intro herr
          exfalso
          split at herr
          · exact PyErr.noConfusion
              ((pyDiv_error_eq (by assumption)).symm.trans (Except.error.inj herr))
          · unfold mkLongPosition at herr
            split at herr
            · obtain rfl := Except.error.inj herr
              exact check_position_spec_ne_stoploss _ _ _ _ _ (by assumption)
            · exact Except.noConfusion herr
        · intro hcond
          rcases hcond with h | h
          · exact absurd h h1
          · exact absurd h h2
      · intro pos hpos
        split at hpos
        · exact Except.noConfusion hpos
        · rename_i r heq
          have har : r = sl / a := by
            unfold pyDiv at heq
            split at heq
            · exact Except.noConfusion heq
            · exact (Except.ok.inj heq).symm
          subst har
          unfold mkLongPosition at hpos
          split at hpos
          · exact Except.noConfusion hpos
          · rename_i w x y z heq2
            obtain rfl := Except.ok.inj hpos
            exact check_position_spec_rp_out account_size rpt pct
              (1 - sl / a) (w, x, y, z) heq2

/-- The position the stop-loss factory builds in the C4 witness: stop-loss 90
against ask 100 with `risk_per_trade = 500` gives `risk_percentage = 0.1`,
`proportion = 5000`, `risk_per_trade_percent = 0.01`. -/
def pos90 : LongPosition :=
  { asset := acme, account_size := 50000, opening_price := price100_98,
    close_price := none, proportion := 5000, risk_per_trade := 500,
    risk_percentage := 1/10, risk_per_trade_percent := 1/100,
    fixed_fee := 0, variable_fee := 0 }

theorem open_long_with_stop_loss_spec_witness :
    Price.ask price100_98 = .ok 100 ∧ Price.bid price100_98 = .ok 98
    ∧ open_long_with_stop_loss 50000 acme price100_98 99 0 0 (some 500) none
        = .error .invalidStopLoss
    ∧ open_long_with_stop_loss 50000 acme price100_98 101 0 0 (some 500) none
        = .error .invalidStopLoss
    ∧ (∃ pos,
        open_long_with_stop_loss 50000 acme price100_98 90 0 0 (some 500) none
          = .ok pos ∧ pos.risk_percentage = 1/10) := by
  have hask : Price.ask price100_98 = .ok 100 := by
    norm_num [Price.ask, price100_98, pyTruthy]
  have hbid : Price.bid price100_98 = .ok 98 := by
    norm_num [Price.bid, price100_98, pyTruthy]
  refine ⟨hask, hbid, ?_, ?_, ?_⟩
  · exact (open_long_with_stop_loss_spec 50000 99 0 0 acme price100_98
      (some 500) none 100 98 hask hbid).1.mpr (Or.inr (by norm_num))
  · exact (open_long_with_stop_loss_spec 50000 101 0 0 acme price100_98
      (some 500) none 100 98 hask hbid).1.mpr (Or.inl (by norm_num))
  · have hok : open_long_with_stop_loss 50000 acme price100_98 90 0 0
        (some 500) none = .ok pos90 := by
      norm_num [open_long_with_stop_loss, mkLongPosition, check_position_spec,
        resolveCore, Price.ask, Price.bid, price100_98, pyTruthy, pyDiv,
        pos90, acme]
    refine ⟨pos90, hok, ?_⟩
    have hrp := (open_long_with_stop_loss_spec 50000 90 0 0 acme price100_98
      (some 500) none 100 98 hask hbid).2 pos90 hok
    rw [hrp]
    norm_num

/-- A position with a negative supplied `risk_per_trade = -500`, accepted by
the resolver (pattern `{risk_per_trade, risk_percentage}`). -/
def negPos : LongPosition :=
  { asset := acme, account_size := 50000, opening_price := price100_98,
    close_price := none, proportion := -6250, risk_per_trade := -500,
    risk_percentage := 2/25, risk_per_trade_percent := -(1/100),
    fixed_fee := 0, variable_fee := 0 }

/-- C5 counterexample: the constructor accepts `risk_per_trade = -500`
against ask 100, the quotient `risk_per_trade / risk_percentage / ask` is
`-62.5`, and `shares()` truncates it toward zero to `-62` while its floor is
`-63` — so `shares()` is not the floor of the quotient for every position. -/
theorem shares_not_floor_cex :
    mkLongPosition acme 50000 price100_98 0 0 none (some (-500)) none
        (some (2/25)) = .ok negPos
    ∧ LongPosition.shares negPos = .ok (-62)
    ∧ ⌊(-500 : ℚ) / (2/25) / 100⌋ = -63 := by
  refine ⟨?_, ?_, ?_⟩
  · norm_num [mkLongPosition, check_position_spec, resolveCore, pyTruthy,
      pyDiv, negPos, acme, price100_98]
  · norm_num [LongPosition.shares, negPos, Price.ask, price100_98, pyTruthy,
      pyDiv, pyInt]
  · norm_num

/-- C5 (amended): `shares()` equals the floor of
`risk_per_trade / risk_percentage / opening_ask` whenever that quotient is
nonnegative (in particular for positive risk parameters and ask) — the
source's `int()` truncates toward zero, which coincides with the floor there;
the `FactorLongPosition` override divides by
`opening_ask * subscription_ratio` instead. -/
theorem shares_eq_floor_of_nonneg :
    (∀ (pos : LongPosition) (a : ℚ), Price.ask pos.opening_price = .ok a →
      pos.risk_percentage ≠ 0 → a ≠ 0 →
      0 ≤ pos.risk_per_trade / pos.risk_percentage / a →
      pos.shares = .ok ⌊pos.risk_per_trade / pos.risk_percentage / a⌋)
    ∧ (∀ (fpos : FactorLongPosition) (a : ℚ),
      Price.ask fpos.opening_price = .ok a →
      fpos.risk_percentage ≠ 0 → a * fpos.subscription_ratio ≠ 0 →
      0 ≤ fpos.risk_per_trade / fpos.risk_percentage /
        (a * fpos.subscription_ratio) →
      FactorLongPosition.shares fpos
        = .ok ⌊fpos.risk_per_trade / fpos.risk_percentage /
            (a * fpos.subscription_ratio)⌋) := by
  constructor
  · intro pos a hask hrp ha hq
    simp only [LongPosition.shares, pyDiv_ok hrp, hask, pyDiv_ok ha]
    simp [pyInt, hq]
  · intro fpos a hask hrp har hq
    simp only [FactorLongPosition.shares, pyDiv_ok hrp, hask, pyDiv_ok har]
    simp [pyInt, hq]

theorem shares_eq_floor_of_nonneg_witness :
    LongPosition.shares openPos = .ok 62
    ∧ FactorLongPosition.shares factorClosedPos = .ok 625 := by
  have hask1 : Price.ask openPos.opening_price = .ok 100 := by
    norm_num [Price.ask, openPos, price100_98, pyTruthy]
  have hask2 : Price.ask factorClosedPos.opening_price = .ok 100 := by
    norm_num [Price.ask, factorClosedPos, closedPos, openPos, price100_98,
      pyTruthy]
  constructor
  · have h := shares_eq_floor_of_nonneg.1 openPos 100 hask1
      (by norm_num [openPos]) (by norm_num) (by norm_num [openPos])
    rw [h]
    norm_num [openPos]
  · have h := shares_eq_floor_of_nonneg.2 factorClosedPos 100 hask2
      (by norm_num [factorClosedPos, closedPos, openPos]) (by norm_num [factorClosedPos])
      (by norm_num [factorClosedPos, closedPos, openPos])
    rw [h]
    norm_num [factorClosedPos, closedPos, openPos]

/-- C6 counterexample: for the concrete closed position `closedPos`
(62 shares, close ask 110, close bid 108, fixed fee 1, variable fee rate
0.001) the closing costs are computed from the close *bid* — order volume
`62 * 108 = 6696`, variable fee `6.696 = 837/125` — and differ from the fee
the claimed close-*ask* volume `62 * 110` would give (`6.82`). -/
theorem closing_costs_uses_bid_cex :
    LongPosition.closing_costs closedPos = .ok (some (1, 837/125, 962/125))
    ∧ (837/125 : ℚ) ≠ 62 * 110 * (1/1000) := by
  constructor
  · norm_num [LongPosition.closing_costs, LongPosition.shares, closedPos,
      openPos, price100_98, price110_108, Price.ask, Price.bid, pyTruthy,
      pyDiv, pyInt, Fees.fixed_fee, Fees.variable_fee, Fees.total]
  · norm_num

/-- C6 (amended): `closing_costs()` is absent for every open position; for
every closed position it delegates to the fee model with
`order_volume = shares() * close_bid` for a plain `LongPosition` and
`order_volume = shares() * close_bid * subscription_ratio` for a
`FactorLongPosition`, yielding the `(fixed, variable, total)` fee tuple. -/
theorem closing_costs_delegation :
    (∀ pos : LongPosition, pos.close_price = none →
      pos.closing_costs = .ok none)
    ∧ (∀ (pos : LongPosition) (cp : Price) (sh : ℤ) (b : ℚ),
        pos.close_price = some cp → pos.shares = .ok sh →
        Price.bid cp = .ok b →
        pos.closing_costs = .ok (some (pos.fixed_fee,
          (sh * b) * pos.variable_fee,
          pos.fixed_fee + (sh * b) * pos.variable_fee)))
    ∧ (∀ (fpos : FactorLongPosition) (cp : Price) (sh : ℤ) (b : ℚ),
        fpos.close_price = some cp → FactorLongPosition.shares fpos = .ok sh →
        Price.bid cp = .ok b →
        FactorLongPosition.closing_costs fpos = .ok (some (fpos.fixed_fee,
          (sh * b * fpos.subscription_ratio) * fpos.variable_fee,
          fpos.fixed_fee + (sh * b * fpos.subscription_ratio) * fpos.variable_fee))) := by
  refine ⟨?_, ?_, ?_⟩
  · intro pos hopen
    simp only [LongPosition.closing_costs, hopen]
  · intro pos cp sh b hclosed hsh hb
    simp only [LongPosition.closing_costs, hclosed, hsh, hb,
      Fees.fixed_fee, Fees.variable_fee, Fees.total]
  · intro fpos cp sh b hclosed hsh hb
    simp only [FactorLongPosition.closing_costs, hclosed, hsh, hb,
      Fees.fixed_fee, Fees.variable_fee, Fees.total]

theorem closing_costs_delegation_witness :
    LongPosition.closing_costs openPos = .ok none
    ∧ LongPosition.closing_costs closedPos = .ok (some (1, 837/125, 962/125))
    ∧ FactorLongPosition.closing_costs factorClosedPos
        = .ok (some (1, 27/4, 31/4)) := by
  have hsh : LongPosition.shares closedPos = .ok 62 := by
    norm_num [LongPosition.shares, closedPos, openPos, price100_98, Price.ask,
      pyTruthy, pyDiv, pyInt]
  have hshf : FactorLongPosition.shares factorClosedPos = .ok 625 := by
    norm_num [FactorLongPosition.shares, factorClosedPos, closedPos, openPos,
      price100_98, Price.ask, pyTruthy, pyDiv, pyInt]
  have hb : Price.bid price110_108 = .ok 108 := by
    norm_num [Price.bid, price110_108, pyTruthy]
  refine ⟨?_, ?_, ?_⟩
  · exact closing_costs_delegation.1 openPos rfl
  · have h := closing_costs_delegation.2.1 closedPos price110_108 62 108 rfl hsh hb
    rw [h]
    norm_num [closedPos, openPos]
  · have h := closing_costs_delegation.2.2 factorClosedPos price110_108 625 108
      rfl hshf hb
    rw [h]
    norm_num [factorClosedPos, closedPos, openPos]

/-- C7 counterexample: a quote supplying only the ask — fewer than two of the
three quantities {ask, bid, spread} — is accepted by the constructor instead
of failing. -/
theorem price_single_input_cex :
    mkPrice 0 none (some 100) none
      = .ok { date_time := 0, _bid := none, _ask := some 100,
              _spread := none } := by
  norm_num [mkPrice, pyTruthy]

/-- C7 (amended): the `Price` constructor fails with `InvalidQuote` precisely
when every one of bid, ask and spread is falsy (absent or zero); any single
truthy value suffices for construction, and insufficiency to derive a missing
quantity is not checked until a derived accessor is called. -/
theorem price_ctor_truthiness_iff :
    ∀ (dt : ℤ) (bid ask spread : Option ℚ),
      (∃ pr, mkPrice dt bid ask spread = .ok pr) ↔
        (pyTruthy bid || pyTruthy ask || pyTruthy spread) = true := by
  intro dt bid ask spread
  unfold mkPrice
  by_cases h : (pyTruthy bid || pyTruthy ask || pyTruthy spread) = true
  · simp [h]
  · simp [h]

/-- C8: for every `FactorLongPosition` with factor `f` and subscription ratio
`r`: `stop_loss()` equals `round(opening_ask * (1 - risk_percentage / f), 3)`,
and once closed `returns()` yields
`gains = (close_bid - opening_ask) * shares() * r * f`,
`gains_percent = gains / size()` and `final = gains - total_cost().total`,
each rounded to 3 decimals. -/
theorem factor_stop_loss_and_returns :
    (∀ (fpos : FactorLongPosition) (a : ℚ),
      Price.ask fpos.opening_price = .ok a → (fpos.factor : ℚ) ≠ 0 →
      FactorLongPosition.stop_loss fpos
        = .ok (pyRound (a * (1 - fpos.risk_percentage / fpos.factor)) 3))
    ∧ (∀ (fpos : FactorLongPosition) (cp : Price) (a b : ℚ) (sh : ℤ)
        (tc : ℚ × ℚ × ℚ),
        fpos.close_price = some cp →
        Price.ask fpos.opening_price = .ok a → Price.bid cp = .ok b →
        FactorLongPosition.shares fpos = .ok sh →
        FactorLongPosition.total_cost fpos = .ok tc →
        (sh : ℚ) * a * fpos.subscription_ratio ≠ 0 →
        FactorLongPosition.returns fpos = .ok (some
          (pyRound ((b - a) * sh * fpos.subscription_ratio * fpos.factor) 3,
           pyRound (((b - a) * sh * fpos.subscription_ratio * fpos.factor)
             / ((sh : ℚ) * a * fpos.subscription_ratio)) 3,
           pyRound ((b - a) * sh * fpos.subscription_ratio * fpos.factor
             - tc.2.2) 3))) := by
  constructor
  · intro fpos a hask hf
    simp only [FactorLongPosition.stop_loss, pyDiv_ok hf, hask]
  · intro fpos cp a b sh tc hclosed hask hb hsh htc hsz
    have hsize : FactorLongPosition.size fpos
        = .ok ((sh : ℚ) * a * fpos.subscription_ratio) := by
      simp only [FactorLongPosition.size, hsh, hask]
    simp only [FactorLongPosition.returns, hclosed, hb, hask, hsh, hsize,
      pyDiv_ok hsz, htc]

theorem factor_stop_loss_and_returns_witness :
    FactorLongPosition.stop_loss factorClosedPos = .ok (97333/1000)
    ∧ FactorLongPosition.returns factorClosedPos
        = .ok (some (1500, 6/25, 1485)) := by
  have hask : Price.ask factorClosedPos.opening_price = .ok 100 := by
    norm_num [Price.ask, factorClosedPos, closedPos, openPos, price100_98,
      pyTruthy]
  have hb : Price.bid price110_108 = .ok 108 := by
    norm_num [Price.bid, price110_108, pyTruthy]
  have hsh : FactorLongPosition.shares factorClosedPos = .ok 625 := by
    norm_num [FactorLongPosition.shares, factorClosedPos, closedPos, openPos,
      price100_98, Price.ask, pyTruthy, pyDiv, pyInt]
  have htc : FactorLongPosition.total_cost factorClosedPos = .ok (2, 13, 15) := by
    norm_num [FactorLongPosition.total_cost, FactorLongPosition.opening_costs,
      FactorLongPosition.closing_costs, FactorLongPosition.size,
      FactorLongPosition.shares, factorClosedPos, closedPos, openPos,
      price100_98, price110_108, Price.ask, Price.bid, pyTruthy, pyDiv, pyInt,
      Fees.fixed_fee, Fees.variable_fee, Fees.total]
  constructor
  · have h := factor_stop_loss_and_returns.1 factorClosedPos 100 hask
      (by norm_num [factorClosedPos])
    rw [h]
    norm_num [factorClosedPos, closedPos, openPos, pyRound, roundHalfEven]
  · have h := factor_stop_loss_and_returns.2 factorClosedPos price110_108
      100 108 625 (2, 13, 15) rfl hask hb hsh htc
      (by norm_num [factorClosedPos])
    rw [h]
    norm_num [factorClosedPos, pyRound, roundHalfEven]
